import Mathlib

/-!
Verification of the call-analytics-server presence / idle / reminder engine.

The JavaScript sources are shallowly embedded as Lean functions:

* association lists `List (String × V)` stand for JS plain objects and Maps
  keyed by agent code (JS keys are unique; updates replace in place);
* timestamps are integer epoch milliseconds (`Int`); `Math.floor(x / d)` on
  a difference of timestamps is `Int.fdiv` (floor division), matching
  JS `Math.floor` on exact integer inputs;
* JS string truthiness (`if (!agentCode)`) is `none` or the empty string;
* fallible external writes are modelled by an explicit per-record success
  oracle (`ok : α → Bool`), one oracle per drain round.
-/

namespace CallAnalytics

/-- Lookup in an association list keyed by `String`, as JS property access
`obj[key]` (first matching key wins; JS objects hold each key once). -/
def lookupAssoc {V : Type} : List (String × V) → String → Option V
  | [], _ => none
  | p :: rest, k => if p.1 == k then some p.2 else lookupAssoc rest k

/-- JS property assignment `obj[key] = v` / `Map.set`: replace the first
binding in place, or append a fresh binding at the end. -/
def setAssoc {V : Type} : List (String × V) → String → V → List (String × V)
  | [], k, v => [(k, v)]
  | (k0, v0) :: rest, k, v =>
    if k0 == k then (k, v) :: rest else (k0, v0) :: setAssoc rest k v

/-- JS `delete obj[key]` / `Map.delete`: drop every binding for the key. -/
def eraseAssoc {V : Type} (l : List (String × V)) (k : String) : List (String × V) :=
  l.filter (fun p => p.1 != k)

/-- Number of bindings an association list holds for a key. -/
def countKey {V : Type} (l : List (String × V)) (k : String) : Nat :=
  (l.filter (fun p => p.1 == k)).length

/-- JS truthiness of an optional string: `undefined`, `null` and the empty
string are falsy. -/
def truthyS : Option String → Bool
  | none => false
  | some s => s != ""

/-! ## DeliveryQueue (idle-session export queue)

`processIdleSessionQueue` in the NocoDB variant of the WebSocket manager:
a `while` loop that `shift`s the head record, attempts the external write,
and on failure `push`es the failed record (to the back), `break`s out of the
drain, and schedules a retry via `setTimeout(..., 5000)`.

The external sink is modelled by a success oracle `ok : α → Bool` for one
drain round; a later round (after the 5 s backoff) gets its own oracle. -/

/-- One drain round of the idle-session queue: returns the records delivered
downstream (in delivery order) and the queue left behind.  Mirrors the loop
body: `shift` the head; on success keep draining; on failure `push` the
failed record to the back of the queue and stop. -/
def processIdleSessionQueue {α : Type} (ok : α → Bool) : List α → List α × List α
  | [] => ([], [])
  | r :: rest =>
    if ok r then
      let res := processIdleSessionQueue ok rest
      (r :: res.1, res.2)
    else
      ([], rest ++ [r])

/-- The retry backoff scheduled when a drain round leaves the queue
non-empty (`setTimeout(() => this.processIdleSessionQueue(), 5000)`). -/
def idleQueueRetryDelayMs : Nat := 5000

/-- Successive drain rounds (each separated by the 5 s backoff), one sink
oracle per round; stops early once the queue is empty.  Returns all records
delivered downstream, in delivery order, and the final queue. -/
def drainRounds {α : Type} : List (α → Bool) → List α → List α × List α
  | [], q => ([], q)
  | ok :: rest, q =>
    let res := processIdleSessionQueue ok q
    if res.2.isEmpty then (res.1, [])
    else
      let res2 := drainRounds rest res.2
      (res.1 ++ res2.1, res2.2)

/-- One cycle of the OTHER queue variant (`processIdleSessionsQueue`, the
SQL-backed manager): `splice` a batch of 5 off the front, attempt each
record, and on an individual failure just log and CONTINUE — the failed
record is dropped, never re-queued. -/
def processIdleSessionsQueueBatch {α : Type} (ok : α → Bool) (q : List α) :
    List α × List α :=
  ((q.take 5).filter ok, q.drop 5)

/-! ## Data model (src/src: websocket.js, services/agentManager.js,
services/dailyTalkTimeManager.js, redis.js, routes.js)

Calendar dates (`toISOString().split('T')[0]`) are abstracted to the whole
day since the epoch, rendered as a decimal string; this is injective per
calendar day, which is all the code relies on. -/

/-- Abstract rendering of the ISO calendar-day part of a timestamp. -/
def isoDayString (t : Int) : String :=
  toString (Int.fdiv t 86400000)

/-- JS `a || b` on two strings where `a` may be missing or empty. -/
def jsOr (o : Option String) (dflt : String) : String :=
  if truthyS o then o.getD "" else dflt

/-- `reminderSettings` object stored on each agents.json record. -/
structure ReminderSettings where
  enabled : Bool
  intervalMinutes : Nat
deriving Repr, DecidableEq

/-- One record of `agents.json` (AgentManager). -/
structure AgentRec where
  agentCode : String
  agentName : String
  status : String
  lastSeen : Int
  reminderSettings : ReminderSettings
  createdAt : Int
  updatedAt : Int
deriving Repr, DecidableEq

/-- The Redis hash `agent:CODE`.  Every field is optional because `hSet`
merges field-by-field: a field is `none` until some write sets it. -/
structure RedisAgent where
  status : Option String := none
  lastUpdate : Option Int := none
  agentName : Option String := none
  socketId : Option Nat := none
  currentCall : Option String := none
  lastCallEnd : Option Int := none
deriving Repr, DecidableEq

/-- The Redis hash `call:CODE` written by `redis.setCallStart` (which always
sets every field, so no merge is needed). -/
structure CallInfo where
  phoneNumber : String
  callType : String
  agentName : String
  startTime : Int
  status : String
deriving Repr, DecidableEq

/-- One agent entry of `dailyData[today]` (DailyTalkTimeManager). -/
structure TalkEntry where
  agentName : Option String
  totalTalkTime : Nat
  lastUpdated : Int
  callCount : Nat
deriving Repr, DecidableEq

/-- A row appended to the PostgreSQL `calls` table (`database.insertCall`). -/
structure CallRow where
  agentCode : String
  phoneNumber : String
  contactName : String
  callType : String
  talkDuration : Nat
  totalDuration : Nat
  callDate : String
  startTime : Int
  endTime : Int
deriving Repr, DecidableEq

/-- An idle-session record inserted by `database.insertIdleSession`. -/
structure IdleSessionRec where
  agentCode : String
  agentName : String
  startTime : Int
  endTime : Int
  idleDuration : Int
  sessionDate : String
deriving Repr, DecidableEq

/-- A client socket: its id plus the `socket.agentCode` / `socket.agentName`
fields assigned during `handleAgentOnline`. -/
structure Socket where
  sid : Nat
  agentCode : Option String := none
  agentName : Option String := none
deriving Repr, DecidableEq

/-- The whole engine state touched by the WebSocket manager: the in-memory
maps of the manager itself, the agents.json registry, the Redis facts, the
daily-talk-time file, and the append-only PostgreSQL tables. -/
structure ServerState where
  agents : List (String × AgentRec)
  connectedAgents : List (String × Nat)
  agentIdleStartTimes : List (String × Int)
  recentReminders : List String
  redisAgents : List (String × RedisAgent)
  redisCalls : List (String × CallInfo)
  todayTalk : List (String × TalkEntry)
  callHistory : List CallRow
  idleSessions : List IdleSessionRec
  lastReminderSent : List (String × Int)
deriving Repr, DecidableEq

/-- An observable emission: either `socket.emit` / `io.to(sid).emit` to one
connection, or `io.emit` to every observer.  The payload is abstracted to
one distinguishing string. -/
inductive Emit where
  | toSocket (sid : Nat) (event : String) (payload : String)
  | broadcast (event : String)
deriving Repr, DecidableEq

/-- Result of one event handler: new state, the (possibly updated) socket,
and the emissions it produced, in order. -/
structure HResult where
  state : ServerState
  socket : Socket
  emits : List Emit
deriving Repr, DecidableEq

/-! ## agentManager.js -/

/-- `agentManager.upsertAgent(agentCode, agentName, status)`: create or
replace the registry record, preserving `reminderSettings` and `createdAt`
of an existing record and defaulting them for a new one. -/
def upsertAgent (agents : List (String × AgentRec)) (agentCode agentName status : String)
    (now : Int) : List (String × AgentRec) :=
  let prev := lookupAssoc agents agentCode
  setAssoc agents agentCode
    { agentCode := agentCode
      agentName := agentName
      status := status
      lastSeen := now
      reminderSettings :=
        match prev with
        | some p => p.reminderSettings
        | none => { enabled := true, intervalMinutes := 5 }
      createdAt :=
        match prev with
        | some p => p.createdAt
        | none => now
      updatedAt := now }

/-- `agentManager.updateAgentStatus(agentCode, status)`: update status,
lastSeen and updatedAt of an existing record; unknown codes are a no-op. -/
def updateAgentStatus (agents : List (String × AgentRec)) (agentCode status : String)
    (now : Int) : List (String × AgentRec) :=
  match lookupAssoc agents agentCode with
  | none => agents
  | some p =>
    setAssoc agents agentCode { p with status := status, lastSeen := now, updatedAt := now }

/-- `agentManager.removeAgent(agentCode)`: `delete this.agents[agentCode]` —
the record is physically removed; returns whether a record existed. -/
def removeAgent (agents : List (String × AgentRec)) (agentCode : String) :
    Bool × List (String × AgentRec) :=
  match lookupAssoc agents agentCode with
  | none => (false, agents)
  | some _ => (true, eraseAssoc agents agentCode)

/-- `agentManager.getEnabledReminderAgents()`. -/
def getEnabledReminderAgents (agents : List (String × AgentRec)) : List AgentRec :=
  (agents.map Prod.snd).filter (fun a => a.reminderSettings.enabled)

/-! ## redis.js -/

/-- Field-merge of one `hSet` field: a provided value overwrites, an absent
one keeps the previous hash field. -/
def mergeField {V : Type} (newVal old : Option V) : Option V :=
  match newVal with
  | some v => some v
  | none => old

/-- `redis.setAgentStatus(agentCode, status, additionalData)`: `hSet` of
status and lastUpdate plus whichever of agentName / socketId / currentCall /
lastCallEnd the call site passes. -/
def redisSetAgentStatus (m : List (String × RedisAgent)) (agentCode status : String)
    (agentName : Option String) (socketId : Option Nat) (currentCall : Option String)
    (lastCallEnd : Option Int) (now : Int) : List (String × RedisAgent) :=
  let prev := (lookupAssoc m agentCode).getD {}
  setAssoc m agentCode
    { status := some status
      lastUpdate := some now
      agentName := mergeField agentName prev.agentName
      socketId := mergeField socketId prev.socketId
      currentCall := mergeField currentCall prev.currentCall
      lastCallEnd := mergeField lastCallEnd prev.lastCallEnd }

/-- `redis.setCallStart(agentCode, callData)`: write the `call:CODE` hash;
the spread always overwrites startTime with now and status with active. -/
def setCallStart (m : List (String × CallInfo)) (agentCode phoneNumber callType agentName : String)
    (now : Int) : List (String × CallInfo) :=
  setAssoc m agentCode
    { phoneNumber := phoneNumber, callType := callType, agentName := agentName,
      startTime := now, status := "active" }

/-- The `hSet agent:CODE lastCallEnd` half of `redis.setCallEnd`. -/
def redisSetLastCallEnd (m : List (String × RedisAgent)) (agentCode : String) (now : Int) :
    List (String × RedisAgent) :=
  let prev := (lookupAssoc m agentCode).getD {}
  setAssoc m agentCode { prev with lastCallEnd := some now }

/-! ## dailyTalkTimeManager.js -/

/-- `dailyTalkTimeManager.updateAgentTalkTime(agentCode, agentName,
totalTalkTimeSeconds, callCount)`: initialize todays entry if missing, then
OVERWRITE `totalTalkTime` with the pushed cumulative value (last-write-wins);
`callCount` is only written when explicitly passed (the call_ended path
passes none). -/
def updateAgentTalkTime (todayTalk : List (String × TalkEntry)) (agentCode : String)
    (agentName : Option String) (totalTalkTimeSeconds : Nat) (callCount : Option Nat)
    (now : Int) : List (String × TalkEntry) :=
  let init := (lookupAssoc todayTalk agentCode).getD
    { agentName := agentName, totalTalkTime := 0, lastUpdated := now, callCount := 0 }
  setAssoc todayTalk agentCode
    { init with
      totalTalkTime := totalTalkTimeSeconds
      agentName := agentName
      lastUpdated := now
      callCount :=
        match callCount with
        | some c => c
        | none => init.callCount }

/-- `formatDuration(seconds)` shared by the managers. -/
def formatDuration (seconds : Nat) : String :=
  let hours := seconds / 3600
  let minutes := (seconds % 3600) / 60
  let remainingSeconds := seconds % 60
  if hours > 0 then
    toString hours ++ "h " ++ toString minutes ++ "m " ++ toString remainingSeconds ++ "s"
  else if minutes > 0 then
    toString minutes ++ "m " ++ toString remainingSeconds ++ "s"
  else
    toString remainingSeconds ++ "s"

/-- One element of `getTodayTalkTime()`s result. -/
structure TalkView where
  agentCode : String
  agentName : Option String
  totalTalkTime : Nat
  formattedTalkTime : String
  callCount : Nat
  lastUpdated : Int
deriving Repr, DecidableEq

/-- `dailyTalkTimeManager.getTodayTalkTime()`. -/
def getTodayTalkTime (todayTalk : List (String × TalkEntry)) : List TalkView :=
  todayTalk.map (fun p =>
    { agentCode := p.1
      agentName := p.2.agentName
      totalTalkTime := p.2.totalTalkTime
      formattedTalkTime := formatDuration p.2.totalTalkTime
      callCount := p.2.callCount
      lastUpdated := p.2.lastUpdated })

/-! ## getDashboardData (websocket.js) -/

/-- One element of the snapshots `agentsOnCall` list. -/
structure OnCallView where
  agentCode : String
  agentName : String
  phoneNumber : String
  callStartTime : Int
  callType : String
deriving Repr, DecidableEq

/-- One element of the snapshots `agentsIdleTime` list. -/
structure IdleView where
  agentCode : String
  agentName : Option String
  minutesSinceLastCall : Int
  lastCallEnd : Int
deriving Repr, DecidableEq

/-- The dashboard snapshot. -/
structure Snapshot where
  agentsTalkTime : List TalkView
  agentsOnCall : List OnCallView
  agentsIdleTime : List IdleView
  lastUpdated : Int
deriving Repr, DecidableEq

/-- The idle-time loop of `getDashboardData`: iterate todays talk-time
entries in order; skip any agent with an active `call:CODE` hash; otherwise
include the agent when its Redis status is online, `lastCallEnd` is set and
the floored minute difference is non-negative. -/
def idleTimeStep (redisAgents : List (String × RedisAgent))
    (redisCalls : List (String × CallInfo)) (now : Int) (acc : List IdleView)
    (a : TalkView) : List IdleView :=
  if (lookupAssoc redisCalls a.agentCode).isSome then acc
  else
    match lookupAssoc redisAgents a.agentCode with
    | some st =>
      if st.status == some "online" then
        match st.lastCallEnd with
        | some lce =>
          let minutesSinceLastCall := Int.fdiv (now - lce) 60000
          if 0 ≤ minutesSinceLastCall then
            acc ++ [{ agentCode := a.agentCode, agentName := a.agentName,
                      minutesSinceLastCall := minutesSinceLastCall, lastCallEnd := lce }]
          else acc
        | none => acc
      else acc
    | none => acc

def idleTimeEntries (talk : List TalkView) (redisAgents : List (String × RedisAgent))
    (redisCalls : List (String × CallInfo)) (now : Int) : List IdleView :=
  talk.foldl (idleTimeStep redisAgents redisCalls now) []

/-- `getDashboardData()`: the JS comparator sorts are embedded as insertion
sorts with the same orderings (talk time ascending by agentCode, idle time
descending by minutes). -/
def getDashboardData (todayTalk : List (String × TalkEntry))
    (redisAgents : List (String × RedisAgent)) (redisCalls : List (String × CallInfo))
    (now : Int) : Snapshot :=
  let talk := getTodayTalkTime todayTalk
  let agentsOnCall : List OnCallView := redisCalls.map (fun p =>
    { agentCode := p.1
      agentName := if p.2.agentName != "" then p.2.agentName else "Unknown"
      phoneNumber := p.2.phoneNumber
      callStartTime := p.2.startTime
      callType := p.2.callType })
  let agentsIdleTime := idleTimeEntries talk redisAgents redisCalls now
  { agentsTalkTime := List.insertionSort (fun x y => x.agentCode ≤ y.agentCode) talk
    agentsOnCall := agentsOnCall
    agentsIdleTime :=
      List.insertionSort (fun x y => y.minutesSinceLastCall ≤ x.minutesSinceLastCall)
        agentsIdleTime
    lastUpdated := now }

/-! ## Event handlers (websocket.js) -/

/-- Payload of an `agent_online` event. -/
structure OnlineData where
  agentCode : Option String := none
  agentName : Option String := none
deriving Repr, DecidableEq

/-- Payload of an `agent_offline` event. -/
structure OfflineData where
  agentCode : Option String := none
deriving Repr, DecidableEq

/-- Payload of a `call_started` event. -/
structure StartData where
  agentCode : Option String := none
  agentName : Option String := none
  phoneNumber : Option String := none
  callType : Option String := none
deriving Repr, DecidableEq

/-- The `callData` object of a `call_ended` event. -/
structure CallDataIn where
  phoneNumber : String
  contactName : String
  callType : String
  talkDuration : Nat
  totalDuration : Nat
  callDate : Option String := none
  startTime : Int
  endTime : Int
  agentName : Option String := none
deriving Repr, DecidableEq

/-- Payload of a `call_ended` event. -/
structure EndData where
  agentCode : Option String := none
  callData : Option CallDataIn := none
  todayTotalTalkTime : Option Nat := none
deriving Repr, DecidableEq

/-- `handleAgentOnline(socket, data)`. -/
def handleAgentOnline (s : ServerState) (sock : Socket) (d : OnlineData) (now : Int) :
    HResult :=
  if !(truthyS d.agentCode && truthyS d.agentName) then
    { state := s, socket := sock,
      emits := [Emit.toSocket sock.sid "error" "Agent code and name required"] }
  else
    let agentCode := d.agentCode.getD ""
    let agentName := d.agentName.getD ""
    { state :=
        { s with
          connectedAgents := setAssoc s.connectedAgents agentCode sock.sid
          agents := upsertAgent s.agents agentCode agentName "online" now
          redisAgents := redisSetAgentStatus s.redisAgents agentCode "online"
            (some agentName) (some sock.sid) none none now }
      socket := { sock with agentCode := some agentCode, agentName := some agentName }
      emits := [Emit.toSocket sock.sid "agent_status" "connected",
                Emit.broadcast "dashboard_update"] }

/-- `handleAgentOffline(socket, data)`: the code falls back to
`socket.agentCode`, and when neither is truthy it does NOTHING — no error
acknowledgment is emitted. -/
def handleAgentOffline (s : ServerState) (sock : Socket) (d : OfflineData) (now : Int) :
    HResult :=
  let agentCode := if truthyS d.agentCode then d.agentCode else sock.agentCode
  if truthyS agentCode then
    let code := agentCode.getD ""
    { state :=
        { s with
          agents := updateAgentStatus s.agents code "offline" now
          redisAgents := redisSetAgentStatus s.redisAgents code "offline"
            none none none none now
          connectedAgents := eraseAssoc s.connectedAgents code }
      socket := sock
      emits := [Emit.broadcast "dashboard_update"] }
  else
    { state := s, socket := sock, emits := [] }

/-- `recordIdleSession(agentCode, agentName)`: close the open idle marker,
insert an IdleSession only when the floored whole-second duration exceeds
30, and clear the marker in either case.  Returns the new insert log and
the new marker map. -/
def recordIdleSession (idleSessions : List IdleSessionRec)
    (agentIdleStartTimes : List (String × Int)) (agentCode : String)
    (agentName : Option String) (now : Int) :
    List IdleSessionRec × List (String × Int) :=
  match lookupAssoc agentIdleStartTimes agentCode with
  | none => (idleSessions, agentIdleStartTimes)
  | some idleStartTime =>
    let idleDurationSeconds := Int.fdiv (now - idleStartTime) 1000
    let sessions :=
      if 30 < idleDurationSeconds then
        idleSessions ++
          [{ agentCode := agentCode
             agentName := agentName.getD "Unknown"
             startTime := idleStartTime
             endTime := now
             idleDuration := idleDurationSeconds
             sessionDate := isoDayString idleStartTime }]
      else idleSessions
    (sessions, eraseAssoc agentIdleStartTimes agentCode)

/-- `handleCallStarted(socket, data)`. -/
def handleCallStarted (s : ServerState) (sock : Socket) (d : StartData) (now : Int) :
    HResult :=
  if !truthyS d.agentCode then
    { state := s, socket := sock,
      emits := [Emit.toSocket sock.sid "error" "Agent code required"] }
  else
    let agentCode := d.agentCode.getD ""
    let rec0 := recordIdleSession s.idleSessions s.agentIdleStartTimes agentCode
      d.agentName now
    { state :=
        { s with
          idleSessions := rec0.1
          agentIdleStartTimes := rec0.2
          agents := updateAgentStatus s.agents agentCode "on_call" now
          redisCalls := setCallStart s.redisCalls agentCode
            (jsOr d.phoneNumber "Unknown") (jsOr d.callType "unknown")
            (jsOr d.agentName "Unknown") now
          redisAgents := redisSetAgentStatus s.redisAgents agentCode "on_call"
            (some (jsOr d.agentName "Unknown")) none
            (some (jsOr d.phoneNumber "Unknown")) none now }
      socket := sock
      emits := [Emit.broadcast "dashboard_update"] }

/-- `handleCallEnded(socket, data)`. -/
def handleCallEnded (s : ServerState) (sock : Socket) (d : EndData) (now : Int) :
    HResult :=
  match d.callData, truthyS d.agentCode with
  | some cd, true =>
    let agentCode := d.agentCode.getD ""
    let todayTalk :=
      match d.todayTotalTalkTime with
      | some tot => updateAgentTalkTime s.todayTalk agentCode cd.agentName tot none now
      | none => s.todayTalk
    let callHistory := s.callHistory ++
      [{ agentCode := agentCode
         phoneNumber := cd.phoneNumber
         contactName := cd.contactName
         callType := cd.callType
         talkDuration := cd.talkDuration
         totalDuration := cd.totalDuration
         callDate := jsOr cd.callDate (isoDayString now)
         startTime := cd.startTime
         endTime := cd.endTime }]
    let agents := updateAgentStatus s.agents agentCode "online" now
    let redisAgents0 := redisSetLastCallEnd s.redisAgents agentCode now
    let redisAgents := redisSetAgentStatus redisAgents0 agentCode "online"
      (if truthyS sock.agentName then sock.agentName else cd.agentName)
      none none (some now) now
    { state :=
        { s with
          todayTalk := todayTalk
          callHistory := callHistory
          agents := agents
          redisCalls := eraseAssoc s.redisCalls agentCode
          redisAgents := redisAgents
          agentIdleStartTimes := setAssoc s.agentIdleStartTimes agentCode now }
      socket := sock
      emits := [Emit.broadcast "dashboard_update"] }
  | _, _ =>
    { state := s, socket := sock,
      emits := [Emit.toSocket sock.sid "error" "Agent code and call data required"] }

/-! ## Reminder system (websocket.js) -/

/-- `shouldSendReminder(agentCode, minutesIdle, intervalMinutes)`: fire only
at exact multiples of the interval, at most once per `(agentCode,
minutesIdle)` key; on fire the key is added to `recentReminders`, evicting
the 20 oldest entries once the set grows past 100.  The
`intervalMinutes = 0` disjunct encodes the JS evaluation
`minutesIdle % 0 === NaN` with `NaN !== 0`.  Returns the decision and the
new `recentReminders`. -/
def shouldSendReminder (recentReminders : List String) (agentCode : String)
    (minutesIdle : Int) (intervalMinutes : Nat) : Bool × List String :=
  if minutesIdle < (intervalMinutes : Int) ∨ intervalMinutes = 0
      ∨ minutesIdle % (intervalMinutes : Int) ≠ 0 then
    (false, recentReminders)
  else
    let lastReminderKey := agentCode ++ "-" ++ toString minutesIdle
    if recentReminders.contains lastReminderKey then
      (false, recentReminders)
    else
      let marks := recentReminders ++ [lastReminderKey]
      (true, if 100 < marks.length then marks.drop 20 else marks)

/-- `sendReminderToAgent(agentCode, agentName, minutesIdle,
intervalMinutes)`: deliver only when the agent has a live socket; on
delivery, record the timestamp via `redis.setLastReminderSent`.  Returns
success, the new state and the emissions. -/
def sendReminderToAgent (s : ServerState) (agentCode : String) (minutesIdle : Int)
    (now : Int) : Bool × ServerState × List Emit :=
  match lookupAssoc s.connectedAgents agentCode with
  | some socketId =>
    (true,
     { s with lastReminderSent := setAssoc s.lastReminderSent agentCode now },
     [Emit.toSocket socketId "reminder_trigger" (toString minutesIdle)])
  | none => (false, s, [])

/-- Result of one `checkAndSendReminders` tick: the new state, the
`(agentCode, minutesIdle)` of every `sendReminderToAgent` invocation (the
fired reminders, recorded for the specification), and the emissions. -/
structure TickResult where
  state : ServerState
  fired : List (String × Int)
  emits : List Emit
deriving Repr, DecidableEq

/-- The per-agent body of the `checkAndSendReminders` loop. -/
def reminderTickAgent (now : Int) (acc : TickResult) (r : AgentRec) : TickResult :=
  if (lookupAssoc acc.state.redisCalls r.agentCode).isSome then acc
  else
    match lookupAssoc acc.state.redisAgents r.agentCode with
    | some agentStatus =>
      if agentStatus.status == some "online" then
        match agentStatus.lastCallEnd with
        | some lastCallEnd =>
          let minutesIdle := Int.fdiv (now - lastCallEnd) 60000
          let dec := shouldSendReminder acc.state.recentReminders r.agentCode
            minutesIdle r.reminderSettings.intervalMinutes
          let st1 := { acc.state with recentReminders := dec.2 }
          if dec.1 then
            let send := sendReminderToAgent st1 r.agentCode minutesIdle now
            { state := send.2.1
              fired := acc.fired ++ [(r.agentCode, minutesIdle)]
              emits := acc.emits ++ send.2.2 }
          else { acc with state := st1 }
        | none => acc
      else acc
    | none => acc

/-- `checkAndSendReminders()`: one scheduler tick over every
reminder-enabled agent. -/
def checkAndSendReminders (s : ServerState) (now : Int) : TickResult :=
  (getEnabledReminderAgents s.agents).foldl (reminderTickAgent now)
    { state := s, fired := [], emits := [] }

/-- `sendManualReminderToAgent(agentCode, agentName)`: unthrottled manual
path — no dedup, no interval check, and deliberately no Redis write
("Dont store in Redis for manual reminders").  Returns success, the state
(no field is written) and the emissions. -/
def sendManualReminderToAgent (s : ServerState) (agentCode : String) :
    Bool × ServerState × List Emit :=
  match lookupAssoc s.connectedAgents agentCode with
  | some socketId =>
    (true, s, [Emit.toSocket socketId "reminder_trigger" "manual"])
  | none => (false, s, [])

/-- The `send_manual_reminder` socket handler: call the manual path, then
answer the requesting dashboard socket with `manual_reminder_response`. -/
def handleSendManualReminder (s : ServerState) (sock : Socket) (agentCode : String) :
    HResult :=
  let res := sendManualReminderToAgent s agentCode
  { state := res.2.1
    socket := sock
    emits := res.2.2 ++
      [Emit.toSocket sock.sid "manual_reminder_response" (toString res.1)] }

/-! ## routes.js: POST /agents/:agentCode/remove -/

/-- The remove-agent route: physically delete the registry record via
`agentManager.removeAgent`; on success set the Redis presence hash to
status `removed` and clear any active call (`redis.setCallEnd`).  Returns
the HTTP status code and the new state. -/
def removeAgentRoute (s : ServerState) (agentCode : String) (now : Int) :
    Nat × ServerState :=
  if agentCode == "" then (400, s)
  else
    let res := removeAgent s.agents agentCode
    if res.1 then
      (200,
       { s with
         agents := res.2
         redisAgents := redisSetLastCallEnd
           (redisSetAgentStatus s.redisAgents agentCode "removed" none none none none now)
           agentCode now
         redisCalls := eraseAssoc s.redisCalls agentCode })
    else (404, { s with agents := res.2 })

/-! ## Specification harness and concrete fixtures -/

/-- Run a sequence of reminder-scheduler ticks at the given times, threading
the state and collecting every fired reminder. -/
def runReminderTicks (s : ServerState) (times : List Int) :
    List (String × Int) × ServerState :=
  times.foldl (fun acc t =>
    let r := checkAndSendReminders acc.2 t
    (acc.1 ++ r.fired, r.state)) ([], s)

/-- The empty engine state (fresh server). -/
def emptyState : ServerState :=
  { agents := [], connectedAgents := [], agentIdleStartTimes := [],
    recentReminders := [], redisAgents := [], redisCalls := [],
    todayTalk := [], callHistory := [], idleSessions := [],
    lastReminderSent := [] }

/-- A concrete registry record (reminders enabled every 5 minutes, the
upsert defaults). -/
def aliceRec : AgentRec :=
  { agentCode := "A001", agentName := "Alice", status := "online",
    lastSeen := 0, reminderSettings := { enabled := true, intervalMinutes := 5 },
    createdAt := 0, updatedAt := 0 }

/-- A concrete `callData` payload for a `call_ended` event. -/
def sampleCallData : CallDataIn :=
  { phoneNumber := "+911234567890", contactName := "Bob", callType := "outgoing",
    talkDuration := 40, totalDuration := 45, callDate := none,
    startTime := 0, endTime := 40000, agentName := some "Alice" }

/-- A concrete state for exercising the reminder scheduler: one enabled
agent, online, connected on socket 7, last call ended at time 0. -/
def reminderDemoState : ServerState :=
  { emptyState with
    agents := [("A001", aliceRec)]
    connectedAgents := [("A001", 7)]
    redisAgents := [("A001", { status := some "online", lastCallEnd := some 0 })] }

/-! ## Theorems -/

/-! ### Association-list lemmas -/

theorem lookupAssoc_setAssoc_self {V : Type} (l : List (String × V)) (k : String) (v : V) :
    lookupAssoc (setAssoc l k v) k = some v := by
  induction l with
  | nil => simp [setAssoc, lookupAssoc]
  | cons p rest ih =>
    by_cases h : p.1 == k
    · cases p
      simp_all [setAssoc, lookupAssoc]
    · cases p
      simp_all [setAssoc, lookupAssoc]

theorem lookupAssoc_setAssoc_ne {V : Type} (l : List (String × V)) (k k2 : String) (v : V)
    (h : k2 ≠ k) : lookupAssoc (setAssoc l k v) k2 = lookupAssoc l k2 := by
  induction l with
  | nil => simp [setAssoc, lookupAssoc, beq_iff_eq, Ne.symm h]
  | cons p rest ih =>
    cases p with
    | mk k0 v0 =>
      by_cases hp : k0 = k
      · subst hp
        simp [setAssoc, lookupAssoc, beq_iff_eq, Ne.symm h]
      · by_cases h2 : k0 = k2
        · subst h2
          simp [setAssoc, lookupAssoc, beq_iff_eq, hp]
        · simp [setAssoc, lookupAssoc, beq_iff_eq, hp, h2, ih]

theorem lookupAssoc_eraseAssoc_self {V : Type} (l : List (String × V)) (k : String) :
    lookupAssoc (eraseAssoc l k) k = none := by
  induction l with
  | nil => simp [eraseAssoc, lookupAssoc]
  | cons p rest ih =>
    cases p with
    | mk k0 v0 =>
      by_cases h : k0 = k
      · subst h
        simp only [eraseAssoc, List.filter_cons] at ih ⊢
        simpa using ih
      · have hb : (k0 == k) = false := by simp [beq_iff_eq, h]
        simp only [eraseAssoc, List.filter_cons] at ih ⊢
        simp [h, hb, lookupAssoc, ih]

theorem countKey_setAssoc {V : Type} (l : List (String × V)) (k : String) (v : V)
    (h : countKey l k ≤ 1) : countKey (setAssoc l k v) k = 1 := by
  induction l with
  | nil => simp [setAssoc, countKey, List.filter_cons]
  | cons p rest ih =>
    cases p with
    | mk k0 v0 =>
      by_cases hp : k0 = k
      · subst hp
        simp only [countKey, List.filter_cons, beq_self_eq_true, if_true,
          List.length_cons] at h ⊢
        simp only [setAssoc, beq_self_eq_true, if_true]
        simp only [List.filter_cons, beq_self_eq_true, if_true, List.length_cons]
        omega
      · have hb : (k0 == k) = false := by simp [beq_iff_eq, hp]
        simp only [countKey, List.filter_cons, hb] at h ih ⊢
        simp only [setAssoc, hb, Bool.false_eq_true, if_false, List.filter_cons, hb]
        exact ih h

theorem lookupAssoc_isSome_of_mem_keys {V : Type} (l : List (String × V)) (k : String)
    (h : k ∈ l.map Prod.fst) : (lookupAssoc l k).isSome = true := by
  induction l with
  | nil => simp at h
  | cons p rest ih =>
    cases p with
    | mk k0 v0 =>
      by_cases hp : k0 = k
      · subst hp
        simp [lookupAssoc]
      · have hb : (k0 == k) = false := by simp [beq_iff_eq, hp]
        simp only [List.map_cons, List.mem_cons] at h
        rcases h with h | h
        · exact absurd h.symm hp
        · simp [lookupAssoc, hb, ih h]

/-! ### C5: agent removal -/

/-- C5 counterexample: the claim fails on the code.  `removeAgent` does
`delete this.agents[agentCode]`: starting from a registry holding the full
record for agent A001, after removal the registry holds NO record for A001
at all — nothing is preserved, no tombstone flag is set. -/
theorem c5_remove_counterexample :
    (removeAgent [("A001", aliceRec)] "A001").1 = true
    ∧ lookupAssoc (removeAgent [("A001", aliceRec)] "A001").2 "A001" = none
    ∧ (removeAgent [("A001", aliceRec)] "A001").2 = [] := by
  exact ⟨rfl, rfl, rfl⟩

/-- C5 (amended): the remove operation PHYSICALLY deletes the Agent record
from the JSON registry (returning false and leaving the registry unchanged
when the code is unknown); the HTTP remove route then marks the Redis
presence hash with status `removed` and clears any active call.  The
registry record (code, name, reminder configuration, timestamps) is NOT
preserved. -/
theorem c5_remove_deletes_record (s : ServerState) (agentCode : String) (now : Int) :
    ((lookupAssoc s.agents agentCode).isSome = true →
        (removeAgent s.agents agentCode).1 = true
        ∧ lookupAssoc (removeAgent s.agents agentCode).2 agentCode = none)
    ∧ (lookupAssoc s.agents agentCode = none →
        removeAgent s.agents agentCode = (false, s.agents))
    ∧ (agentCode ≠ "" → (lookupAssoc s.agents agentCode).isSome = true →
        (removeAgentRoute s agentCode now).1 = 200
        ∧ lookupAssoc (removeAgentRoute s agentCode now).2.agents agentCode = none
        ∧ (lookupAssoc (removeAgentRoute s agentCode now).2.redisAgents agentCode).map
            RedisAgent.status = some (some "removed")) := by
  refine ⟨?_, ?_, ?_⟩
  · intro h
    rcases Option.isSome_iff_exists.mp h with ⟨r, hr⟩
    constructor
    · simp [removeAgent, hr]
    · simp [removeAgent, hr, lookupAssoc_eraseAssoc_self]
  · intro h
    simp [removeAgent, h]
  · intro hne h
    rcases Option.isSome_iff_exists.mp h with ⟨r, hr⟩
    have hb : (agentCode == "") = false := by simp [beq_iff_eq, hne]
    refine ⟨?_, ?_, ?_⟩
    · simp [removeAgentRoute, hb, removeAgent, hr]
    · simp [removeAgentRoute, hb, removeAgent, hr, lookupAssoc_eraseAssoc_self]
    · have hroute : (removeAgentRoute s agentCode now).2.redisAgents
          = redisSetLastCallEnd
              (redisSetAgentStatus s.redisAgents agentCode "removed" none none none none now)
              agentCode now := by
        simp [removeAgentRoute, hb, removeAgent, hr]
      rw [hroute]
      simp [redisSetLastCallEnd, redisSetAgentStatus, lookupAssoc_setAssoc_self]

/-- C5 witness: the amended theorem at the concrete one-agent registry. -/
theorem c5_remove_deletes_record_witness :
    ((lookupAssoc ({ emptyState with agents := [("A001", aliceRec)] } : ServerState).agents
        "A001").isSome = true)
    ∧ ((removeAgentRoute { emptyState with agents := [("A001", aliceRec)] } "A001" 0).1 = 200
        ∧ lookupAssoc (removeAgentRoute { emptyState with agents := [("A001", aliceRec)] }
            "A001" 0).2.agents "A001" = none
        ∧ (lookupAssoc (removeAgentRoute { emptyState with agents := [("A001", aliceRec)] }
            "A001" 0).2.redisAgents "A001").map RedisAgent.status = some (some "removed")) :=
  ⟨rfl,
   (c5_remove_deletes_record { emptyState with agents := [("A001", aliceRec)] } "A001" 0).2.2
     (by decide) rfl⟩

/-! ### C7: DailyTalkTime is last-write-wins -/

/-- C7: `updateAgentTalkTime` OVERWRITES the stored daily total with the
cumulative value pushed by the client (it does not add the call duration),
and a `call_ended` event carrying `todayTotalTalkTime` leaves exactly that
value stored for the agent, whatever was stored before. -/
theorem c7_talk_time_last_write_wins (s : ServerState) (sock : Socket) (d : EndData)
    (now : Int) (agentCode : String) (cd : CallDataIn) (tot : Nat)
    (todayTalk : List (String × TalkEntry)) (agentName : Option String)
    (callCount : Option Nat)
    (hcode : d.agentCode = some agentCode) (hne : agentCode ≠ "")
    (hcd : d.callData = some cd) (htot : d.todayTotalTalkTime = some tot) :
    (lookupAssoc (updateAgentTalkTime todayTalk agentCode agentName tot callCount now)
        agentCode).map TalkEntry.totalTalkTime = some tot
    ∧ (lookupAssoc (handleCallEnded s sock d now).state.todayTalk agentCode).map
        TalkEntry.totalTalkTime = some tot := by
  have ht : truthyS d.agentCode = true := by
    rw [hcode]; simp [truthyS, hne]
  have hget : d.agentCode.getD "" = agentCode := by rw [hcode]; rfl
  constructor
  · simp only [updateAgentTalkTime]
    rw [lookupAssoc_setAssoc_self]
    rfl
  · simp only [handleCallEnded, hcd, ht, htot, hget]
    simp only [updateAgentTalkTime]
    rw [lookupAssoc_setAssoc_self]
    rfl

/-- C7 witness: a prior stored total of 999 s is overwritten by the pushed
cumulative 125 s. -/
theorem c7_talk_time_witness :
    (lookupAssoc (handleCallEnded
        { emptyState with todayTalk := [("A001",
            { agentName := some "Alice", totalTalkTime := 999, lastUpdated := 0,
              callCount := 3 })] }
        { sid := 7 }
        { agentCode := some "A001", callData := some sampleCallData,
          todayTotalTalkTime := some 125 }
        50000).state.todayTalk "A001").map TalkEntry.totalTalkTime = some 125 :=
  (c7_talk_time_last_write_wins
    { emptyState with todayTalk := [("A001",
        { agentName := some "Alice", totalTalkTime := 999, lastUpdated := 0,
          callCount := 3 })] }
    { sid := 7 }
    { agentCode := some "A001", callData := some sampleCallData,
      todayTotalTalkTime := some 125 }
    50000 "A001" sampleCallData 125 [] none none rfl (by decide) rfl rfl).2

/-! ### C6: malformed-input rejection -/

/-- C6 counterexample: the claim fails on the code for `agent_offline`.  An
`agent_offline` event with no `agentCode` (on a socket that never
identified itself) is dropped SILENTLY: the handler emits nothing at all —
no error acknowledgment — although it does leave the state unchanged. -/
theorem c6_offline_silent_counterexample :
    (handleAgentOffline emptyState { sid := 7 } {} 0).emits = []
    ∧ (handleAgentOffline emptyState { sid := 7 } {} 0).state = emptyState := by
  exact ⟨rfl, rfl⟩

/-- C6 (amended): `agent_online`, `call_started` and `call_ended` missing
their required fields emit exactly one error acknowledgment to the
originating socket and leave the engine state (and the socket) completely
unchanged; `agent_offline` missing `agentCode` falls back to the sockets
registered code, and when neither is present it leaves the state unchanged
but emits NOTHING (no error acknowledgment). -/
theorem c6_malformed_rejection (s : ServerState) (sock : Socket)
    (dOn : OnlineData) (dStart : StartData) (dEnd : EndData) (dOff : OfflineData)
    (now : Int) :
    ((truthyS dOn.agentCode && truthyS dOn.agentName) = false →
      handleAgentOnline s sock dOn now
        = ⟨s, sock, [Emit.toSocket sock.sid "error" "Agent code and name required"]⟩)
    ∧ (truthyS dStart.agentCode = false →
      handleCallStarted s sock dStart now
        = ⟨s, sock, [Emit.toSocket sock.sid "error" "Agent code required"]⟩)
    ∧ ((truthyS dEnd.agentCode = false ∨ dEnd.callData = none) →
      handleCallEnded s sock dEnd now
        = ⟨s, sock, [Emit.toSocket sock.sid "error" "Agent code and call data required"]⟩)
    ∧ (truthyS dOff.agentCode = false → truthyS sock.agentCode = false →
      handleAgentOffline s sock dOff now = ⟨s, sock, []⟩) := by
  refine ⟨?_, ?_, ?_, ?_⟩
  · intro h
    simp [handleAgentOnline, h]
  · intro h
    simp [handleCallStarted, h]
  · intro h
    cases hcd : dEnd.callData with
    | none =>
      cases ht : truthyS dEnd.agentCode <;> simp [handleCallEnded, hcd, ht]
    | some cd =>
      have ht : truthyS dEnd.agentCode = false := by
        rcases h with h | h
        · exact h
        · rw [hcd] at h; cases h
      simp [handleCallEnded, hcd, ht]
  · intro h1 h2
    simp [handleAgentOffline, h1, h2]

/-- C6 witness: the amended theorem at concrete empty payloads. -/
theorem c6_malformed_rejection_witness :
    (handleAgentOnline emptyState { sid := 7 } {} 0
      = ⟨emptyState, { sid := 7 }, [Emit.toSocket 7 "error" "Agent code and name required"]⟩)
    ∧ (handleCallStarted emptyState { sid := 7 } {} 0
      = ⟨emptyState, { sid := 7 }, [Emit.toSocket 7 "error" "Agent code required"]⟩)
    ∧ (handleCallEnded emptyState { sid := 7 } {} 0
      = ⟨emptyState, { sid := 7 }, [Emit.toSocket 7 "error" "Agent code and call data required"]⟩)
    ∧ (handleAgentOffline emptyState { sid := 7 } {} 0
      = ⟨emptyState, { sid := 7 }, []⟩) :=
  ⟨(c6_malformed_rejection emptyState { sid := 7 } {} {} {} {} 0).1 rfl,
   (c6_malformed_rejection emptyState { sid := 7 } {} {} {} {} 0).2.1 rfl,
   (c6_malformed_rejection emptyState { sid := 7 } {} {} {} {} 0).2.2.1 (Or.inl rfl),
   (c6_malformed_rejection emptyState { sid := 7 } {} {} {} {} 0).2.2.2 rfl rfl⟩

/-! ### C3: idle-session threshold -/

/-- C3: a `call_started` event closes an open idle marker; an IdleSession
is inserted exactly when the floored whole-second idle duration exceeds 30,
carrying that duration, and the marker is cleared in either case; with no
open marker nothing is inserted. -/
theorem c3_idle_threshold (sessions : List IdleSessionRec)
    (idleStarts : List (String × Int)) (s : ServerState) (sock : Socket)
    (d : StartData) (agentCode : String) (agentName : Option String) (t0 now : Int) :
    (lookupAssoc idleStarts agentCode = some t0 →
      lookupAssoc (recordIdleSession sessions idleStarts agentCode agentName now).2
          agentCode = none
      ∧ (30 < Int.fdiv (now - t0) 1000 →
          (recordIdleSession sessions idleStarts agentCode agentName now).1
            = sessions ++ [{ agentCode := agentCode,
                             agentName := agentName.getD "Unknown",
                             startTime := t0, endTime := now,
                             idleDuration := Int.fdiv (now - t0) 1000,
                             sessionDate := isoDayString t0 }])
      ∧ (Int.fdiv (now - t0) 1000 ≤ 30 →
          (recordIdleSession sessions idleStarts agentCode agentName now).1 = sessions))
    ∧ (lookupAssoc idleStarts agentCode = none →
        recordIdleSession sessions idleStarts agentCode agentName now
          = (sessions, idleStarts))
    ∧ (d.agentCode = some agentCode → agentCode ≠ "" →
        (handleCallStarted s sock d now).state.idleSessions
          = (recordIdleSession s.idleSessions s.agentIdleStartTimes agentCode
              d.agentName now).1
        ∧ (handleCallStarted s sock d now).state.agentIdleStartTimes
          = (recordIdleSession s.idleSessions s.agentIdleStartTimes agentCode
              d.agentName now).2) := by
  refine ⟨?_, ?_, ?_⟩
  · intro h
    refine ⟨?_, ?_, ?_⟩
    · simp [recordIdleSession, h, lookupAssoc_eraseAssoc_self]
    · intro hgt
      simp [recordIdleSession, h, hgt]
    · intro hle
      have : ¬(30 < Int.fdiv (now - t0) 1000) := not_lt.mpr hle
      simp [recordIdleSession, h, this]
  · intro h
    simp [recordIdleSession, h]
  · intro hcode hne
    have ht : truthyS d.agentCode = true := by
      rw [hcode]; simp [truthyS, hne]
    have hget : d.agentCode.getD "" = agentCode := by rw [hcode]; rfl
    constructor <;> simp [handleCallStarted, ht, hget]

/-- C3 witness: an idle gap of exactly 30 s (marker at 0, call at 30000 ms)
inserts nothing; a gap of 31 s inserts exactly one IdleSession with
duration 31; the marker is cleared. -/
theorem c3_idle_threshold_witness :
    ((recordIdleSession [] [("A001", 0)] "A001" (some "Alice") 31000).1
      = [{ agentCode := "A001", agentName := "Alice", startTime := 0, endTime := 31000,
           idleDuration := 31, sessionDate := isoDayString 0 }])
    ∧ (recordIdleSession [] [("A001", 0)] "A001" (some "Alice") 30000).1 = []
    ∧ lookupAssoc (recordIdleSession [] [("A001", 0)] "A001" (some "Alice") 30000).2
        "A001" = none :=
  ⟨((c3_idle_threshold [] [("A001", 0)] emptyState { sid := 7 } {} "A001"
      (some "Alice") 0 31000).1 rfl).2.1 (by decide),
   ((c3_idle_threshold [] [("A001", 0)] emptyState { sid := 7 } {} "A001"
      (some "Alice") 0 30000).1 rfl).2.2 (by decide),
   ((c3_idle_threshold [] [("A001", 0)] emptyState { sid := 7 } {} "A001"
      (some "Alice") 0 30000).1 rfl).1⟩

/-! ### C9: manual reminder frame property -/

/-- C9: the manual reminder path performs no dedup and no interval check
(its behaviour is independent of `recentReminders` and of any interval
configuration), writes NO state at all — in particular `recentReminders`
and `lastReminderSent` are untouched — and therefore leaves every future
automatic scheduler tick exactly as it would have been. -/
theorem c9_manual_reminder_frame (s : ServerState) (sock : Socket)
    (agentCode : String) (r2 : List String) (l2 : List (String × Int)) (now : Int) :
    (sendManualReminderToAgent s agentCode).2.1 = s
    ∧ (handleSendManualReminder s sock agentCode).state = s
    ∧ (sendManualReminderToAgent s agentCode).1
        = (lookupAssoc s.connectedAgents agentCode).isSome
    ∧ (sendManualReminderToAgent
          { s with recentReminders := r2, lastReminderSent := l2 } agentCode).1
        = (sendManualReminderToAgent s agentCode).1
    ∧ (sendManualReminderToAgent
          { s with recentReminders := r2, lastReminderSent := l2 } agentCode).2.2
        = (sendManualReminderToAgent s agentCode).2.2
    ∧ checkAndSendReminders ((handleSendManualReminder s sock agentCode).state) now
        = checkAndSendReminders s now := by
  cases h : lookupAssoc s.connectedAgents agentCode <;>
    simp [sendManualReminderToAgent, handleSendManualReminder, h]

/-! ### C8: idempotence of agent_online -/

/-- C8: processing `agent_online` twice with the same code and name leaves
exactly one registry record, one Redis presence hash and one socket mapping
for that code, and the second pass changes only `lastSeen` and `updatedAt`
on the registry record (status is already online, name unchanged,
`reminderSettings` and `createdAt` preserved). -/
theorem c8_agent_online_idempotent (s : ServerState) (sock1 sock2 : Socket)
    (agentCode agentName : String) (t1 t2 : Int)
    (hc : agentCode ≠ "") (hn : agentName ≠ "")
    (h1 : countKey s.agents agentCode ≤ 1)
    (h2 : countKey s.redisAgents agentCode ≤ 1)
    (h3 : countKey s.connectedAgents agentCode ≤ 1) :
    countKey (handleAgentOnline
        (handleAgentOnline s sock1
          { agentCode := some agentCode, agentName := some agentName } t1).state
        sock2 { agentCode := some agentCode, agentName := some agentName } t2).state.agents
      agentCode = 1
    ∧ countKey (handleAgentOnline
        (handleAgentOnline s sock1
          { agentCode := some agentCode, agentName := some agentName } t1).state
        sock2 { agentCode := some agentCode, agentName := some agentName } t2).state.redisAgents
      agentCode = 1
    ∧ countKey (handleAgentOnline
        (handleAgentOnline s sock1
          { agentCode := some agentCode, agentName := some agentName } t1).state
        sock2 { agentCode := some agentCode, agentName := some agentName } t2).state.connectedAgents
      agentCode = 1
    ∧ ∃ rec1,
        lookupAssoc (handleAgentOnline s sock1
          { agentCode := some agentCode, agentName := some agentName } t1).state.agents
          agentCode = some rec1
        ∧ lookupAssoc (handleAgentOnline
            (handleAgentOnline s sock1
              { agentCode := some agentCode, agentName := some agentName } t1).state
            sock2 { agentCode := some agentCode, agentName := some agentName } t2).state.agents
            agentCode = some { rec1 with lastSeen := t2, updatedAt := t2 } := by
  have ht : truthyS (some agentCode) = true := by simp [truthyS, hc]
  have htn : truthyS (some agentName) = true := by simp [truthyS, hn]
  simp only [handleAgentOnline, ht, htn, Bool.and_self, Bool.not_true, Bool.false_eq_true,
    if_false, Option.getD_some]
  refine ⟨?_, ?_, ?_, ?_⟩
  · exact countKey_setAssoc _ _ _
      (le_of_eq (countKey_setAssoc _ _ _ (by simpa [upsertAgent] using h1)))
  · exact countKey_setAssoc _ _ _
      (le_of_eq (countKey_setAssoc _ _ _ (by simpa [redisSetAgentStatus] using h2)))
  · exact countKey_setAssoc _ _ _
      (le_of_eq (countKey_setAssoc _ _ _ h3))
  · simp only [upsertAgent]
    refine ⟨_, lookupAssoc_setAssoc_self _ _ _, ?_⟩
    simp [lookupAssoc_setAssoc_self]

/-- C8 witness: the idempotence theorem at a fresh server with agent A001
coming online at times 0 and 5. -/
theorem c8_agent_online_idempotent_witness :
    countKey (handleAgentOnline
        (handleAgentOnline emptyState { sid := 7 }
          { agentCode := some "A001", agentName := some "Alice" } 0).state
        { sid := 8 } { agentCode := some "A001", agentName := some "Alice" } 5).state.agents
      "A001" = 1
    ∧ countKey (handleAgentOnline
        (handleAgentOnline emptyState { sid := 7 }
          { agentCode := some "A001", agentName := some "Alice" } 0).state
        { sid := 8 } { agentCode := some "A001", agentName := some "Alice" } 5).state.redisAgents
      "A001" = 1
    ∧ countKey (handleAgentOnline
        (handleAgentOnline emptyState { sid := 7 }
          { agentCode := some "A001", agentName := some "Alice" } 0).state
        { sid := 8 } { agentCode := some "A001", agentName := some "Alice" } 5).state.connectedAgents
      "A001" = 1 :=
  ⟨(c8_agent_online_idempotent emptyState { sid := 7 } { sid := 8 } "A001" "Alice" 0 5
      (by decide) (by decide) (by decide) (by decide) (by decide)).1,
   (c8_agent_online_idempotent emptyState { sid := 7 } { sid := 8 } "A001" "Alice" 0 5
      (by decide) (by decide) (by decide) (by decide) (by decide)).2.1,
   (c8_agent_online_idempotent emptyState { sid := 7 } { sid := 8 } "A001" "Alice" 0 5
      (by decide) (by decide) (by decide) (by decide) (by decide)).2.2.1⟩

/-! ### C4 / C10: dashboard snapshot invariants -/

/-- Every entry produced by the idle-time loop comes from a talk-time entry
with the same agent code, and only when no `call:CODE` hash exists. -/
theorem mem_idleTimeFold (ra : List (String × RedisAgent))
    (rc : List (String × CallInfo)) (now : Int) :
    ∀ (talk : List TalkView) (acc : List IdleView) (e : IdleView),
      e ∈ talk.foldl (idleTimeStep ra rc now) acc →
      e ∈ acc ∨ ∃ a, a ∈ talk ∧ e.agentCode = a.agentCode
        ∧ lookupAssoc rc a.agentCode = none := by
  intro talk
  induction talk with
  | nil =>
    intro acc e h
    exact Or.inl h
  | cons a rest ih =>
    intro acc e h
    rcases ih (idleTimeStep ra rc now acc a) e h with h1 | ⟨a2, ha2, h2, h3⟩
    · unfold idleTimeStep at h1
      split at h1
      · exact Or.inl h1
      · rename_i hC
        split at h1
        · rename_i st hra
          split at h1
          · split at h1
            · rename_i lce hlce
              dsimp only at h1
              split at h1
              · rcases List.mem_append.mp h1 with h1 | h1
                · exact Or.inl h1
                · rcases List.mem_singleton.mp h1 with rfl
                  exact Or.inr ⟨a, List.mem_cons_self a rest, rfl,
                    Option.not_isSome_iff_eq_none.mp hC⟩
              · exact Or.inl h1
            · exact Or.inl h1
          · exact Or.inl h1
        · exact Or.inl h1
    · exact Or.inr ⟨a2, List.mem_cons_of_mem a ha2, h2, h3⟩

/-- Specialization to the idle list itself. -/
theorem mem_idleTimeEntries (talk : List TalkView) (ra : List (String × RedisAgent))
    (rc : List (String × CallInfo)) (now : Int) (e : IdleView)
    (h : e ∈ idleTimeEntries talk ra rc now) :
    lookupAssoc rc e.agentCode = none
    ∧ ∃ a, a ∈ talk ∧ a.agentCode = e.agentCode := by
  rcases mem_idleTimeFold ra rc now talk [] e h with h1 | ⟨a, ha, h2, h3⟩
  · cases h1
  · exact ⟨h2 ▸ h3, a, ha, h2.symm⟩

/-- C4: in every dashboard snapshot, no agent code appears in both the
on-call list and the idle list: any agent holding an active `call:CODE`
hash is excluded from the idle loop regardless of its presence status. -/
theorem c4_snapshot_mutual_exclusion (todayTalk : List (String × TalkEntry))
    (redisAgents : List (String × RedisAgent)) (redisCalls : List (String × CallInfo))
    (now : Int) :
    ((getDashboardData todayTalk redisAgents redisCalls now).agentsIdleTime.all
      (fun e => (getDashboardData todayTalk redisAgents redisCalls now).agentsOnCall.all
        (fun oc => oc.agentCode != e.agentCode))) = true := by
  simp only [List.all_eq_true, bne_iff_ne, ne_eq]
  intro e he oc hoc
  simp only [getDashboardData, List.mem_insertionSort] at he hoc
  have hidle := mem_idleTimeEntries _ _ _ _ e he
  rcases List.mem_map.mp hoc with ⟨p, hp, rfl⟩
  intro heq
  have heq2 : p.1 = e.agentCode := by simpa using heq
  have hmem : p.1 ∈ redisCalls.map Prod.fst := List.mem_map.mpr ⟨p, hp, rfl⟩
  have hsome := lookupAssoc_isSome_of_mem_keys redisCalls p.1 hmem
  have hnone : lookupAssoc redisCalls p.1 = none := by
    rw [heq2]
    exact hidle.1
  rw [hnone] at hsome
  cases hsome

/-- C10 (implicit): every agent code in the snapshots idle list also
appears in its talk-time list, because the idle loop iterates exactly over
todays talk-time entries. -/
theorem c10_idle_subset_talk_time (todayTalk : List (String × TalkEntry))
    (redisAgents : List (String × RedisAgent)) (redisCalls : List (String × CallInfo))
    (now : Int) :
    ((getDashboardData todayTalk redisAgents redisCalls now).agentsIdleTime.all
      (fun e => (getDashboardData todayTalk redisAgents redisCalls now).agentsTalkTime.any
        (fun t => t.agentCode == e.agentCode))) = true := by
  simp only [List.all_eq_true]
  intro e he
  simp only [getDashboardData, List.mem_insertionSort] at he ⊢
  have hidle := mem_idleTimeEntries _ _ _ _ e he
  rcases hidle.2 with ⟨a, ha, hcode⟩
  rw [List.any_eq_true]
  exact ⟨a, (List.mem_insertionSort _).mpr ha, by simp [hcode]⟩

/-! ### C2: reminder firing rule and dedup -/

/-- `shouldSendReminder` returns true exactly when the idle minutes reach
the interval, hit an exact multiple of it, and the dedup key is not yet in
the recency set. -/
theorem shouldSendReminder_fires_iff (recent : List String) (agentCode : String)
    (minutesIdle : Int) (intervalMinutes : Nat) (h : 0 < intervalMinutes) :
    (shouldSendReminder recent agentCode minutesIdle intervalMinutes).1 = true ↔
      ((intervalMinutes : Int) ≤ minutesIdle
        ∧ minutesIdle % (intervalMinutes : Int) = 0
        ∧ recent.contains (agentCode ++ "-" ++ toString minutesIdle) = false) := by
  unfold shouldSendReminder
  by_cases hc : (minutesIdle < (intervalMinutes : Int) ∨ intervalMinutes = 0
      ∨ minutesIdle % (intervalMinutes : Int) ≠ 0)
  · rw [if_pos hc]
    simp only [Bool.false_eq_true, false_iff]
    rintro ⟨hle, hmod, _⟩
    rcases hc with hc | hc | hc
    · omega
    · omega
    · exact hc hmod
  · rw [if_neg hc]
    push_neg at hc
    by_cases hcont : recent.contains (agentCode ++ "-" ++ toString minutesIdle) = true
    · dsimp only
      rw [if_pos hcont]
      simp only [Bool.false_eq_true, false_iff]
      rintro ⟨_, _, hfalse⟩
      rw [hcont] at hfalse
      cases hfalse
    · dsimp only
      rw [if_neg hcont]
      refine ⟨fun _ => ⟨hc.1, hc.2.2, by simpa using hcont⟩, fun _ => rfl⟩

/-- With a single enabled agent, one tick is one loop-body step. -/
theorem checkAndSendReminders_single (s : ServerState) (r : AgentRec) (now : Int)
    (hs : getEnabledReminderAgents s.agents = [r]) :
    checkAndSendReminders s now
      = reminderTickAgent now { state := s, fired := [], emits := [] } r := by
  simp [checkAndSendReminders, hs]

/-- C2: the reminder firing rule.  For an enabled agent that is not on a
call, is online, and has a known `lastCallEnd`, a tick fires a reminder for
exactly `minutesIdle = floor((now - lastCallEnd)/60000)` if and only if
`minutesIdle >= intervalMinutes`, `minutesIdle` is an exact multiple of
`intervalMinutes`, and the `agentCode-minutesIdle` key is not already in
the ReminderMark set; a tick fires nothing for an agent that is on a call,
not online, or has no `lastCallEnd`.  Concretely, with interval 5 an agent
idle through minutes 5,6,7,8,9,10 fires exactly at 5 and 10, and two ticks
within minute 5 fire only once. -/
theorem c2_reminder_firing_rule (recent : List String) (agentCode : String)
    (minutesIdle : Int) (intervalMinutes : Nat) (s : ServerState) (r : AgentRec)
    (st : RedisAgent) (lce now : Int)
    (hi : 0 < intervalMinutes) (hri : 0 < r.reminderSettings.intervalMinutes)
    (hs : getEnabledReminderAgents s.agents = [r]) :
    ((shouldSendReminder recent agentCode minutesIdle intervalMinutes).1 = true ↔
      ((intervalMinutes : Int) ≤ minutesIdle
        ∧ minutesIdle % (intervalMinutes : Int) = 0
        ∧ recent.contains (agentCode ++ "-" ++ toString minutesIdle) = false))
    ∧ (lookupAssoc s.redisCalls r.agentCode = none →
        lookupAssoc s.redisAgents r.agentCode = some st →
        st.status = some "online" →
        st.lastCallEnd = some lce →
        ((checkAndSendReminders s now).fired
            = [(r.agentCode, Int.fdiv (now - lce) 60000)]
          ↔ ((r.reminderSettings.intervalMinutes : Int) ≤ Int.fdiv (now - lce) 60000
            ∧ Int.fdiv (now - lce) 60000 % (r.reminderSettings.intervalMinutes : Int) = 0
            ∧ s.recentReminders.contains
                (r.agentCode ++ "-" ++ toString (Int.fdiv (now - lce) 60000)) = false)))
    ∧ ((lookupAssoc s.redisCalls r.agentCode).isSome = true →
        (checkAndSendReminders s now).fired = [])
    ∧ (lookupAssoc s.redisAgents r.agentCode = some st → st.status ≠ some "online" →
        (checkAndSendReminders s now).fired = [])
    ∧ (lookupAssoc s.redisAgents r.agentCode = some st → st.lastCallEnd = none →
        (checkAndSendReminders s now).fired = [])
    ∧ (runReminderTicks reminderDemoState
          [300000, 360000, 420000, 480000, 540000, 600000]).1
        = [("A001", 5), ("A001", 10)]
    ∧ (runReminderTicks reminderDemoState [300000, 300000]).1 = [("A001", 5)] := by
  refine ⟨shouldSendReminder_fires_iff recent agentCode minutesIdle intervalMinutes hi,
    ?_, ?_, ?_, ?_, by decide, by decide⟩
  · intro hrc hra hst hlce
    rw [checkAndSendReminders_single s r now hs]
    unfold reminderTickAgent
    have hstb : (st.status == some "online") = true := by simp [hst]
    by_cases hdec : (shouldSendReminder s.recentReminders r.agentCode
        (Int.fdiv (now - lce) 60000) r.reminderSettings.intervalMinutes).1 = true
    · simp only [hrc, hra, hstb, hlce, Option.isSome_none, Bool.false_eq_true, if_false,
        if_true, hdec]
      have hconds := (shouldSendReminder_fires_iff s.recentReminders r.agentCode
        (Int.fdiv (now - lce) 60000) r.reminderSettings.intervalMinutes hri).mp hdec
      exact iff_of_true (by simp) ⟨hconds.1, hconds.2.1, hconds.2.2⟩
    · simp only [hrc, hra, hstb, hlce, Option.isSome_none, Bool.false_eq_true, if_false,
        if_true, hdec]
      have hnconds := fun hh => hdec ((shouldSendReminder_fires_iff s.recentReminders
        r.agentCode (Int.fdiv (now - lce) 60000)
        r.reminderSettings.intervalMinutes hri).mpr hh)
      constructor
      · intro hfired
        exact absurd hfired (by simp)
      · intro hh
        exact absurd hh hnconds
  · intro hrc
    rw [checkAndSendReminders_single s r now hs]
    unfold reminderTickAgent
    simp [hrc]
  · intro hra hst
    have hstb : (st.status == some "online") = false := by simp [hst]
    rw [checkAndSendReminders_single s r now hs]
    unfold reminderTickAgent
    cases hrc : lookupAssoc s.redisCalls r.agentCode <;> simp [hrc, hra, hstb]
  · intro hra hlce
    rw [checkAndSendReminders_single s r now hs]
    unfold reminderTickAgent
    cases hrc : lookupAssoc s.redisCalls r.agentCode <;>
      cases hstb : (st.status == some "online") <;> simp [hrc, hra, hstb, hlce]

/-- C2 witness: the firing rule at concrete inputs — minute 10 with
interval 5, and the six-minute demo scenario. -/
theorem c2_reminder_firing_rule_witness :
    (((shouldSendReminder [] "A001" 10 5).1 = true ↔
      ((5 : Nat) : Int) ≤ 10 ∧ (10 : Int) % ((5 : Nat) : Int) = 0
        ∧ List.contains [] ("A001" ++ "-" ++ toString (10 : Int)) = false))
    ∧ (runReminderTicks reminderDemoState
          [300000, 360000, 420000, 480000, 540000, 600000]).1
        = [("A001", 5), ("A001", 10)]
    ∧ (runReminderTicks reminderDemoState [300000, 300000]).1 = [("A001", 5)] := by
  have h := c2_reminder_firing_rule [] "A001" 10 5 reminderDemoState aliceRec
    { status := some "online", lastCallEnd := some 0 } 0 300000
    (by decide) (by decide) (by decide)
  exact ⟨h.1, h.2.2.2.2.2.1, h.2.2.2.2.2.2⟩

/-- A drain round delivers a prefix of the queue: the records written
downstream before the failure are exactly the leading successful records,
each written once. -/
theorem processIdleSessionQueue_initial_segment {α : Type} (ok : α → Bool) (q : List α) :
    ∃ t, (processIdleSessionQueue ok q).1 ++ t = q := by
  induction q with
  | nil => exact ⟨[], rfl⟩
  | cons r rest ih =>
    by_cases h : ok r = true
    · obtain ⟨t, ht⟩ := ih
      exact ⟨t, by simp [processIdleSessionQueue, h, ht]⟩
    · exact ⟨r :: rest, by simp [processIdleSessionQueue, h]⟩

/-- A drain round neither loses nor duplicates records: delivered records
plus the remaining queue are a permutation of the starting queue. -/
theorem processIdleSessionQueue_perm {α : Type} (ok : α → Bool) (q : List α) :
    List.Perm ((processIdleSessionQueue ok q).1 ++ (processIdleSessionQueue ok q).2) q := by
  induction q with
  | nil => simp [processIdleSessionQueue]
  | cons r rest ih =>
    by_cases h : ok r = true
    · simpa [processIdleSessionQueue, h] using ih.cons r
    · simp [processIdleSessionQueue, h, List.perm_append_singleton r rest]

/-- With the sink healthy, a single drain round delivers the whole queue in
order and leaves it empty. -/
theorem processIdleSessionQueue_all_ok {α : Type} (q : List α) :
    processIdleSessionQueue (fun _ => true) q = (q, []) := by
  induction q with
  | nil => rfl
  | cons r rest ih => simp [processIdleSessionQueue, ih]

/-- Multi-round draining neither loses nor duplicates records. -/
theorem drainRounds_perm {α : Type} (oks : List (α → Bool)) (q : List α) :
    List.Perm ((drainRounds oks q).1 ++ (drainRounds oks q).2) q := by
  induction oks generalizing q with
  | nil => simp [drainRounds]
  | cons ok rest ih =>
    by_cases h : (processIdleSessionQueue ok q).2.isEmpty
    · have hq := processIdleSessionQueue_perm ok q
      rw [List.isEmpty_iff] at h
      simpa [drainRounds, h] using hq
    · have hq := processIdleSessionQueue_perm ok q
      have h2 := ih (processIdleSessionQueue ok q).2
      simp only [drainRounds, h, ite_false, Bool.false_eq_true]
      rw [List.append_assoc]
      exact (List.Perm.append_left _ h2).trans hq

/-- Once the sink recovers (a final all-success round), the queue drains
completely. -/
theorem drainRounds_recovers {α : Type} (oks : List (α → Bool)) (q : List α) :
    (drainRounds (oks ++ [fun _ => true]) q).2 = [] := by
  induction oks generalizing q with
  | nil =>
    simp [drainRounds, processIdleSessionQueue_all_ok]
  | cons ok rest ih =>
    by_cases h : (processIdleSessionQueue ok q).2.isEmpty
    · simp [drainRounds, h]
    · simp [drainRounds, h, ih]

/-- C1 counterexample: the claim fails on the code.  With five records
enqueued and the sink failing exactly on record 2 during the first drain
round, the failed record is re-enqueued at the BACK (the remaining queue is
`[3, 4, 5, 2]`, not `[2, 3, 4, 5]`), and once the sink recovers the
downstream delivery order is `[1, 3, 4, 5, 2]` — not the original enqueue
order `[1, 2, 3, 4, 5]` promised by the claim.  In the other cited variant
(the batched `processIdleSessionsQueue`), the failed record 2 is dropped
entirely and never delivered at all. -/
theorem c1_queue_order_counterexample :
    (processIdleSessionQueue (fun n => n != 2) ([1, 2, 3, 4, 5] : List Nat)).2
        = [3, 4, 5, 2]
    ∧ (drainRounds [fun n => n != 2, fun _ => true] ([1, 2, 3, 4, 5] : List Nat)).1
        = [1, 3, 4, 5, 2]
    ∧ (drainRounds [fun n => n != 2, fun _ => true] ([1, 2, 3, 4, 5] : List Nat)).1
        ≠ [1, 2, 3, 4, 5]
    ∧ processIdleSessionsQueueBatch (fun n => n != 2) ([1, 2, 3, 4, 5] : List Nat)
        = ([1, 3, 4, 5], []) := by
  refine ⟨rfl, rfl, ?_, rfl⟩
  decide

/-- C1 (amended): on a sink failure the failed record is re-enqueued at the
BACK of the queue and draining stops until the fixed 5-second backoff
retries it.  No earlier record is ever duplicated downstream (each drain
round delivers a prefix of the queue, each record once), no record is ever
lost (delivered plus remaining is a permutation of the queue), and once the
sink recovers every record is delivered exactly once — but not necessarily
in original enqueue order. -/
theorem c1_queue_failure_handling {α : Type} (ok : α → Bool)
    (oks : List (α → Bool)) (q : List α) :
    (∃ t, (processIdleSessionQueue ok q).1 ++ t = q)
    ∧ List.Perm ((processIdleSessionQueue ok q).1 ++ (processIdleSessionQueue ok q).2) q
    ∧ (drainRounds (oks ++ [fun _ => true]) q).2 = []
    ∧ List.Perm (drainRounds (oks ++ [fun _ => true]) q).1 q
    ∧ idleQueueRetryDelayMs = 5000 := by
  refine ⟨processIdleSessionQueue_initial_segment ok q, processIdleSessionQueue_perm ok q,
    drainRounds_recovers oks q, ?_, rfl⟩
  have hp := drainRounds_perm (oks ++ [fun _ => true]) q
  rw [drainRounds_recovers oks q, List.append_nil] at hp
  exact hp


end CallAnalytics
